import Mathlib

/-
Verification of operator-adapter code from an MXNet MKLDNN/oneDNN branch:
  - mkldnn_deconvolution-inl.h : deconvolution forward/backward adapters
  - mkldnn_reshape-inl.h       : reshape forward adapter
  - np_rayleigh_op.cc          : Rayleigh sampling operator registration

The C++ is shallowly embedded: memory descriptors become records over lists
of per-axis data, mutation becomes explicit result values, and external
library calls (primitive-descriptor creation, reorders) become function
parameters of the embedding.
-/

namespace MxnetVerify

/-- Per-axis data of a oneDNN memory descriptor: the logical extent, the
padded extent (padded formats may require more memory than the tensor size),
and the physical stride.  Extents are modelled as naturals (the C++ uses
int64_t but all extents are nonnegative). -/
structure MemDescAxis where
  dim : Nat
  paddedDim : Nat
  stride : Nat
deriving DecidableEq, Repr

/-- A oneDNN memory descriptor, reduced to the parts the adapters inspect:
the ordered list of logical axes and a data-type tag
(mkldnn::memory::data_type). `axes.length` plays the role of
`desc.data.ndims`. -/
structure MemDesc where
  axes : List MemDescAxis
  dataType : Nat
deriving DecidableEq, Repr

/-- `desc.data.ndims`. -/
def MemDesc.ndims (d : MemDesc) : Nat := d.axes.length

/-- `std::swap(order[i], order[j])` on a `std::vector`: exchanges the
elements at `i` and `j`; out-of-range indices leave the vector unchanged
(the C++ behaviour is undefined there, and the call sites below stay in
range on well-formed descriptors). -/
def listSwap {α : Type} (xs : List α) (i j : Nat) : List α :=
  if h1 : i < xs.length then
    if h2 : j < xs.length then
      (xs.set i (xs.get ⟨j, h2⟩)).set j (xs.get ⟨i, h1⟩)
    else xs
  else xs

/-- `mkldnn::memory::desc::permute_axes(order)`: rearranges the logical axes
of the descriptor according to `order`.  It is applied below only to
transpositions, for which gathering (`result[k] = axes[order[k]]`) and
scattering coincide, so the gather form is used. -/
def MemDesc.permute_axes (d : MemDesc) (order : List Nat) : MemDesc :=
  { d with axes := order.map (fun i => d.axes.getD i ⟨0, 0, 0⟩) }

/-- The offset computed inside `IOLogicalSwapDesc`:
`const int offset = static_cast<int>(num_group > 1)`. -/
def swapOffset (num_group : Nat) : Nat := if 1 < num_group then 1 else 0

/-- `IOLogicalSwapDesc` (mkldnn_deconvolution-inl.h): builds
`order = iota(ndims)`, swaps `order[offset + 0]` and `order[offset + 1]`
where `offset = (num_group > 1)`, and permutes the axes of `desc`
accordingly. -/
def IOLogicalSwapDesc (desc : MemDesc) (num_group : Nat) : MemDesc :=
  let order := List.range desc.ndims
  let offset := swapOffset num_group
  desc.permute_axes (listSwap order offset (offset + 1))

/-- Index arithmetic of the transposition performed by `IOLogicalSwapDesc`:
when both swapped positions are in range, `o` and `o + 1` exchange and every
other index is fixed; out of range it is the identity. -/
def swapIdx (o n k : Nat) : Nat :=
  if o + 1 < n then (if k = o then o + 1 else if k = o + 1 then o else k) else k

theorem listSwap_range_getElem (n o k : Nat) (h : o + 1 < n) :
    (listSwap (List.range n) o (o + 1))[k]? =
      if k < n then some (swapIdx o n k) else none := by
  have ho : o < n := Nat.lt_of_succ_lt h
  unfold listSwap swapIdx
  rw [dif_pos (show o < (List.range n).length by simpa using ho),
    dif_pos (show o + 1 < (List.range n).length by simpa using h)]
  simp only [List.getElem?_set, List.length_set, List.length_range,
    List.get_eq_getElem, List.getElem_range, if_pos h]
  split_ifs <;> first
    | rfl
    | omega
    | (rw [List.getElem?_range (by omega)])
    | (exact List.getElem?_eq_none (by simp only [List.length_range]; omega))

theorem listSwap_range_oob (n o : Nat) (h : ¬ o + 1 < n) :
    listSwap (List.range n) o (o + 1) = List.range n := by
  unfold listSwap
  rcases Nat.lt_or_ge o n with ho | ho
  · rw [dif_pos (show o < (List.range n).length by simpa using ho),
      dif_neg (show ¬ o + 1 < (List.range n).length by simpa using h)]
  · rw [dif_neg (show ¬ o < (List.range n).length by
      simpa using Nat.not_lt.mpr ho)]

theorem IOLogicalSwapDesc_dataType (desc : MemDesc) (g : Nat) :
    (IOLogicalSwapDesc desc g).dataType = desc.dataType := rfl

theorem IOLogicalSwapDesc_getElem (desc : MemDesc) (g k : Nat) :
    (IOLogicalSwapDesc desc g).axes[k]? =
      desc.axes[swapIdx (swapOffset g) desc.ndims k]? := by
  show ((listSwap (List.range desc.ndims) (swapOffset g) (swapOffset g + 1)).map
      (fun i => desc.axes.getD i ⟨0, 0, 0⟩))[k]? = _
  rw [List.getElem?_map]
  by_cases hrange : swapOffset g + 1 < desc.ndims
  · rw [listSwap_range_getElem _ _ _ hrange]
    by_cases hk : k < desc.ndims
    · have hs : swapIdx (swapOffset g) desc.ndims k < desc.ndims := by
        unfold swapIdx; split_ifs <;> omega
      rw [if_pos hk, Option.map_some', List.getD_eq_getElem desc.axes ⟨0, 0, 0⟩ hs,
        List.getElem?_eq_getElem hs]
    · have hs : desc.ndims ≤ swapIdx (swapOffset g) desc.ndims k := by
        unfold swapIdx; split_ifs <;> omega
      rw [if_neg hk, Option.map_none', eq_comm]
      exact List.getElem?_eq_none hs
  · rw [listSwap_range_oob _ _ hrange]
    have hs : swapIdx (swapOffset g) desc.ndims k = k := by
      unfold swapIdx; rw [if_neg hrange]
    rw [hs]
    by_cases hk : k < desc.ndims
    · rw [List.getElem?_range hk, Option.map_some',
        List.getD_eq_getElem desc.axes ⟨0, 0, 0⟩ hk, List.getElem?_eq_getElem hk]
    · rw [List.getElem?_eq_none
        (show (List.range desc.ndims).length ≤ k by
          simpa using Nat.not_lt.mp hk),
        Option.map_none', eq_comm]
      exact List.getElem?_eq_none (Nat.not_lt.mp hk)

theorem IOLogicalSwapDesc_ndims (desc : MemDesc) (g : Nat) :
    (IOLogicalSwapDesc desc g).ndims = desc.ndims := by
  show ((listSwap (List.range desc.ndims) (swapOffset g) (swapOffset g + 1)).map
      (fun i => desc.axes.getD i ⟨0, 0, 0⟩)).length = _
  rw [List.length_map]
  unfold listSwap
  split_ifs <;> simp [MemDesc.ndims]

/-- Claim C2: for every memory descriptor with at least 2 dimensions (at
least 3 when `num_group > 1`), `IOLogicalSwapDesc` returns a descriptor in
which exactly the two logical axes holding input and output channels are
exchanged — positions 0 and 1 when `num_group ≤ 1`, positions 1 and 2 when
`num_group > 1` (both captured by `swapOffset`) — while every other axis,
the dimension count, and the data type keep their places (so oihw becomes
iohw, iohw becomes oihw, and goihw becomes giohw). -/
theorem claim_C2_IOLogicalSwapDesc_swaps_channel_axes (desc : MemDesc)
    (num_group : Nat) (h : swapOffset num_group + 1 < desc.ndims) :
    (IOLogicalSwapDesc desc num_group).ndims = desc.ndims ∧
    (IOLogicalSwapDesc desc num_group).dataType = desc.dataType ∧
    (IOLogicalSwapDesc desc num_group).axes[swapOffset num_group]? =
      desc.axes[swapOffset num_group + 1]? ∧
    (IOLogicalSwapDesc desc num_group).axes[swapOffset num_group + 1]? =
      desc.axes[swapOffset num_group]? ∧
    ∀ k : Nat, k ≠ swapOffset num_group → k ≠ swapOffset num_group + 1 →
      (IOLogicalSwapDesc desc num_group).axes[k]? = desc.axes[k]? := by
  refine ⟨IOLogicalSwapDesc_ndims desc num_group, rfl, ?_, ?_, ?_⟩
  · rw [IOLogicalSwapDesc_getElem]
    have hs : swapIdx (swapOffset num_group) desc.ndims (swapOffset num_group) =
        swapOffset num_group + 1 := by
      unfold swapIdx; split_ifs <;> omega
    rw [hs]
  · rw [IOLogicalSwapDesc_getElem]
    have hs : swapIdx (swapOffset num_group) desc.ndims (swapOffset num_group + 1) =
        swapOffset num_group := by
      unfold swapIdx; split_ifs <;> omega
    rw [hs]
  · intro k hk1 hk2
    rw [IOLogicalSwapDesc_getElem]
    have hs : swapIdx (swapOffset num_group) desc.ndims k = k := by
      unfold swapIdx; split_ifs <;> omega
    rw [hs]

/-- Witness for C2 at a concrete oihw descriptor with `num_group = 1`. -/
theorem claim_C2_witness :
    swapOffset 1 + 1 <
      (MemDesc.mk [⟨8, 8, 1⟩, ⟨3, 3, 1⟩, ⟨5, 5, 1⟩, ⟨7, 7, 1⟩] 0).ndims ∧
    ((IOLogicalSwapDesc (MemDesc.mk [⟨8, 8, 1⟩, ⟨3, 3, 1⟩, ⟨5, 5, 1⟩, ⟨7, 7, 1⟩] 0) 1).ndims =
        (MemDesc.mk [⟨8, 8, 1⟩, ⟨3, 3, 1⟩, ⟨5, 5, 1⟩, ⟨7, 7, 1⟩] 0).ndims ∧
      (IOLogicalSwapDesc (MemDesc.mk [⟨8, 8, 1⟩, ⟨3, 3, 1⟩, ⟨5, 5, 1⟩, ⟨7, 7, 1⟩] 0) 1).dataType =
        (MemDesc.mk [⟨8, 8, 1⟩, ⟨3, 3, 1⟩, ⟨5, 5, 1⟩, ⟨7, 7, 1⟩] 0).dataType ∧
      (IOLogicalSwapDesc (MemDesc.mk [⟨8, 8, 1⟩, ⟨3, 3, 1⟩, ⟨5, 5, 1⟩, ⟨7, 7, 1⟩] 0) 1).axes[swapOffset 1]? =
        (MemDesc.mk [⟨8, 8, 1⟩, ⟨3, 3, 1⟩, ⟨5, 5, 1⟩, ⟨7, 7, 1⟩] 0).axes[swapOffset 1 + 1]? ∧
      (IOLogicalSwapDesc (MemDesc.mk [⟨8, 8, 1⟩, ⟨3, 3, 1⟩, ⟨5, 5, 1⟩, ⟨7, 7, 1⟩] 0) 1).axes[swapOffset 1 + 1]? =
        (MemDesc.mk [⟨8, 8, 1⟩, ⟨3, 3, 1⟩, ⟨5, 5, 1⟩, ⟨7, 7, 1⟩] 0).axes[swapOffset 1]? ∧
      ∀ k : Nat, k ≠ swapOffset 1 → k ≠ swapOffset 1 + 1 →
        (IOLogicalSwapDesc (MemDesc.mk [⟨8, 8, 1⟩, ⟨3, 3, 1⟩, ⟨5, 5, 1⟩, ⟨7, 7, 1⟩] 0) 1).axes[k]? =
          (MemDesc.mk [⟨8, 8, 1⟩, ⟨3, 3, 1⟩, ⟨5, 5, 1⟩, ⟨7, 7, 1⟩] 0).axes[k]?) :=
  ⟨by decide,
    claim_C2_IOLogicalSwapDesc_swaps_channel_axes
      (MemDesc.mk [⟨8, 8, 1⟩, ⟨3, 3, 1⟩, ⟨5, 5, 1⟩, ⟨7, 7, 1⟩] 0) 1 (by decide)⟩

/-- Claim C7: `IOLogicalSwapDesc` is an involution: applying it twice with
the same group count returns the original descriptor. -/
theorem claim_C7_IOLogicalSwapDesc_involution (desc : MemDesc) (num_group : Nat) :
    IOLogicalSwapDesc (IOLogicalSwapDesc desc num_group) num_group = desc := by
  have hax : (IOLogicalSwapDesc (IOLogicalSwapDesc desc num_group) num_group).axes =
      desc.axes := by
    apply List.ext_getElem?
    intro k
    rw [IOLogicalSwapDesc_getElem, IOLogicalSwapDesc_ndims,
      IOLogicalSwapDesc_getElem]
    have hs : swapIdx (swapOffset num_group) desc.ndims
        (swapIdx (swapOffset num_group) desc.ndims k) = k := by
      unfold swapIdx; split_ifs <;> omega
    rw [hs]
  have hparts : ∀ a b : MemDesc, a.axes = b.axes → a.dataType = b.dataType → a = b := by
    intro a b h1 h2
    cases a; cases b; simp_all
  exact hparts _ _ hax rfl

/-- Byte width of a oneDNN data-type tag (undef = 0, f16 = 1, bf16 = 2,
f32 = 3, s32 = 4, s8 = 5, u8 = 6). -/
def dataTypeSize (t : Nat) : Nat :=
  if t = 1 ∨ t = 2 then 2 else if t = 3 ∨ t = 4 then 4 else if t = 5 ∨ t = 6 then 1 else 0

/-- Modelled from the spec: `GetMemDescSize` is defined in
mkldnn_base-inl.h, which is not among the sources.  It returns the number
of bytes the descriptor's memory takes, which for padded formats is the
product of the padded extents times the data-type byte width — padded
formats "require more memory compared to the actual size of the tensor"
(comment in CheckImplSizeReq). -/
def GetMemDescSize (md : MemDesc) : Nat :=
  dataTypeSize md.dataType * (md.axes.map MemDescAxis.paddedDim).prod

/-- `DeconvDescCreator` (mkldnn_deconvolution-inl.h): holds the memory
descriptors and geometry from which the deconvolution operation descriptors
are built. -/
structure DeconvDescCreator where
  data_md : MemDesc
  weights_md : MemDesc
  bias_md : MemDesc
  out_md : MemDesc
  strides : List Nat
  padding : List Nat
  dilates : List Nat
deriving DecidableEq, Repr

/-- `DeconvDescCreator::CheckImplSizeReq` (mkldnn_deconvolution-inl.h):
accepts an implementation only when each of the three size requirements is
exactly the pre-planned `GetMemDescSize` of the corresponding stored
descriptor. -/
def DeconvDescCreator.CheckImplSizeReq (c : DeconvDescCreator)
    (data_size weights_size out_size : Nat) : Bool :=
  data_size == GetMemDescSize c.data_md &&
    weights_size == GetMemDescSize c.weights_md &&
    out_size == GetMemDescSize c.out_md

/-- Claim C1 counterexample: `CheckImplSizeReq` is not equivalent to "none
of the three size requirements exceeds the pre-planned buffer size".  At a
creator whose data descriptor takes 8 bytes, a requirement of only 4 bytes
exceeds nothing, yet `CheckImplSizeReq` returns false because it demands
exact equality. -/
theorem claim_C1_counterexample :
    ¬ ((DeconvDescCreator.CheckImplSizeReq
          (DeconvDescCreator.mk (MemDesc.mk [⟨2, 2, 1⟩] 3) (MemDesc.mk [⟨1, 1, 1⟩] 3)
            (MemDesc.mk [⟨1, 1, 1⟩] 3) (MemDesc.mk [⟨1, 1, 1⟩] 3) [1] [0] [0])
          4 4 4 = true) ↔
        (4 ≤ GetMemDescSize (MemDesc.mk [⟨2, 2, 1⟩] 3) ∧
          4 ≤ GetMemDescSize (MemDesc.mk [⟨1, 1, 1⟩] 3) ∧
          4 ≤ GetMemDescSize (MemDesc.mk [⟨1, 1, 1⟩] 3))) := by
  decide

/-- Claim C1 (amended): `CheckImplSizeReq(data_size, weights_size,
out_size)` returns true iff each of the three size requirements is exactly
equal to the `GetMemDescSize` of the corresponding stored memory
descriptor; accordingly the fall-back to a plain layout is triggered
whenever the chosen implementation's size requirements differ from the
pre-planned buffer sizes, not only when they exceed them. -/
theorem claim_C1_CheckImplSizeReq_exact_size_iff (c : DeconvDescCreator)
    (data_size weights_size out_size : Nat) :
    c.CheckImplSizeReq data_size weights_size out_size = true ↔
      (data_size = GetMemDescSize c.data_md ∧
        weights_size = GetMemDescSize c.weights_md ∧
        out_size = GetMemDescSize c.out_md) := by
  unfold DeconvDescCreator.CheckImplSizeReq
  simp [Bool.and_eq_true, and_assoc]

/-- An NDArray handle: a shape, the identity of the underlying buffer, and
the element values seen through it (elements modelled as integers). -/
structure NDArray where
  shape : List Nat
  bufId : Nat
  data : List Int
deriving DecidableEq, Repr

/-- Modelled from the spec: `DeconvolutionParam` is declared in
deconvolution-inl.h, which is not among the sources.  The adapters here
treat it as an opaque parameter pack; only the group count and the bias
flag are ever read by the shown code. -/
structure DeconvolutionParam where
  num_group : Nat
  no_bias : Bool
deriving DecidableEq, Repr

namespace MKLDNNDeconvFwd

/-- `MKLDNNDeconvFwd::Tensors`: the forward pass reads data, weights, an
optional bias, and writes out. -/
structure Tensors where
  data : NDArray
  weights : NDArray
  bias : Option NDArray
  out : NDArray
deriving DecidableEq, Repr

end MKLDNNDeconvFwd

namespace MKLDNNDeconvBwd

/-- `MKLDNNDeconvBwd::ReadTensors`: the backward pass reads data, weights,
an optional bias, and the output gradient. -/
structure ReadTensors where
  data : NDArray
  weights : NDArray
  bias : Option NDArray
  out_grad : NDArray
deriving DecidableEq, Repr

end MKLDNNDeconvBwd

/-- The three primitive-descriptor factories the backward constructor
calls.  Their bodies live in mkldnn_deconvolution.cc and the oneDNN
library, outside the sources, so they are parameters of the embedding;
the fields keep the C++ names. -/
structure DeconvPdLib (FwdPd BwdDataPd BwdWeightsPd : Type) where
  CreatePrimitiveDesc : DeconvolutionParam → MKLDNNDeconvFwd.Tensors → FwdPd
  CreateDataPrimitiveDesc : DeconvolutionParam → MKLDNNDeconvBwd.ReadTensors → FwdPd → BwdDataPd
  CreateWeightsPrimitiveDesc : DeconvolutionParam → MKLDNNDeconvBwd.ReadTensors → FwdPd → BwdWeightsPd

/-- The state the `MKLDNNDeconvBwd` constructor establishes: the
backward-data and backward-weights primitive descriptors. -/
structure MKLDNNDeconvBwd (BwdDataPd BwdWeightsPd : Type) where
  bwd_data_pd : BwdDataPd
  bwd_weights_pd : BwdWeightsPd

/-- The `MKLDNNDeconvBwd` constructor (mkldnn_deconvolution-inl.h, lines
255-264): first creates the forward primitive descriptor for the same
parameters and tensors, with `out_grad` in the `out` position, then derives
both backward primitive descriptors from it. -/
def MKLDNNDeconvBwd.construct {FwdPd BwdDataPd BwdWeightsPd : Type}
    (lib : DeconvPdLib FwdPd BwdDataPd BwdWeightsPd)
    (param : DeconvolutionParam) (read_tensors : MKLDNNDeconvBwd.ReadTensors) :
    MKLDNNDeconvBwd BwdDataPd BwdWeightsPd :=
  let fwd_pd := lib.CreatePrimitiveDesc param
    ⟨read_tensors.data, read_tensors.weights, read_tensors.bias, read_tensors.out_grad⟩
  { bwd_data_pd := lib.CreateDataPrimitiveDesc param read_tensors fwd_pd
    bwd_weights_pd := lib.CreateWeightsPrimitiveDesc param read_tensors fwd_pd }

/-- Claim C3: for every library, parameter pack, and read tensors, the
backward constructor builds the forward primitive descriptor for the same
parameters and tensors (with `out_grad` in the output position) and passes
that same forward primitive descriptor to both `CreateDataPrimitiveDesc`
and `CreateWeightsPrimitiveDesc`. -/
theorem claim_C3_bwd_pds_derive_from_fwd_pd {FwdPd BwdDataPd BwdWeightsPd : Type}
    (lib : DeconvPdLib FwdPd BwdDataPd BwdWeightsPd)
    (param : DeconvolutionParam) (rt : MKLDNNDeconvBwd.ReadTensors) :
    ∃ fwd_pd : FwdPd,
      fwd_pd = lib.CreatePrimitiveDesc param
        (MKLDNNDeconvFwd.Tensors.mk rt.data rt.weights rt.bias rt.out_grad) ∧
      (MKLDNNDeconvBwd.construct lib param rt).bwd_data_pd =
        lib.CreateDataPrimitiveDesc param rt fwd_pd ∧
      (MKLDNNDeconvBwd.construct lib param rt).bwd_weights_pd =
        lib.CreateWeightsPrimitiveDesc param rt fwd_pd :=
  ⟨lib.CreatePrimitiveDesc param
      (MKLDNNDeconvFwd.Tensors.mk rt.data rt.weights rt.bias rt.out_grad),
    rfl, rfl, rfl⟩

/-- A oneDNN memory object: its descriptor and the identity of the
underlying memory, standing in for the C++ object's address. -/
structure MkldnnMemory where
  desc : MemDesc
  id : Nat
deriving DecidableEq, Repr

/-- `mkldnn::memory::get_desc()`. -/
def MkldnnMemory.get_desc (m : MkldnnMemory) : MemDesc := m.desc

/-- The part of the backward-weights primitive descriptor the shown code
reads in `OutGradMem`: `diff_dst_desc()`. -/
structure DeconvBwdWeightsPd where
  diff_dst_desc : MemDesc
deriving DecidableEq, Repr

/-- `MKLDNNDeconvBwd::OutGradMem(out_grad, out_grad_mem)`
(mkldnn_deconvolution-inl.h, lines 291-297): returns `out_grad_mem` when it
is non-null and its descriptor equals `bwd_weights_pd->diff_dst_desc()`,
and otherwise reorders `out_grad` to that descriptor.
`NDArray::GetMKLDNNDataReorder` is outside the sources and is passed in as
`reorder`. -/
def MKLDNNDeconvBwd.OutGradMem (bwd_weights_pd : DeconvBwdWeightsPd)
    (reorder : NDArray → MemDesc → MkldnnMemory)
    (out_grad : NDArray) (out_grad_mem : Option MkldnnMemory) : MkldnnMemory :=
  match out_grad_mem with
  | some m =>
      if m.get_desc = bwd_weights_pd.diff_dst_desc then m
      else reorder out_grad bwd_weights_pd.diff_dst_desc
  | none => reorder out_grad bwd_weights_pd.diff_dst_desc

/-- Claim C9: when the reorder produces a memory distinct from the passed
one (a fresh object), `OutGradMem(out_grad, out_grad_mem)` returns the
passed `out_grad_mem` itself iff it is non-null and its descriptor equals
`bwd_weights_pd->diff_dst_desc()`; in every other case (descriptor
mismatch, or null pointer) it returns `out_grad` reordered to that
descriptor. -/
theorem claim_C9_OutGradMem_reuse_iff (pd : DeconvBwdWeightsPd)
    (reorder : NDArray → MemDesc → MkldnnMemory) (out_grad : NDArray)
    (m : MkldnnMemory)
    (hfresh : ∀ md : MemDesc, reorder out_grad md ≠ m) :
    (MKLDNNDeconvBwd.OutGradMem pd reorder out_grad (some m) = m ↔
      m.get_desc = pd.diff_dst_desc) ∧
    (m.get_desc ≠ pd.diff_dst_desc →
      MKLDNNDeconvBwd.OutGradMem pd reorder out_grad (some m) =
        reorder out_grad pd.diff_dst_desc) ∧
    MKLDNNDeconvBwd.OutGradMem pd reorder out_grad none =
      reorder out_grad pd.diff_dst_desc := by
  have hsome : MKLDNNDeconvBwd.OutGradMem pd reorder out_grad (some m) =
      if m.get_desc = pd.diff_dst_desc then m
      else reorder out_grad pd.diff_dst_desc := rfl
  refine ⟨⟨fun hr => ?_, fun hd => by rw [hsome, if_pos hd]⟩,
    fun hd => by rw [hsome, if_neg hd], rfl⟩
  by_contra hd
  rw [hsome, if_neg hd] at hr
  exact hfresh _ hr

/-- Witness for C9 at a concrete descriptor, memory, and fresh reorder. -/
theorem claim_C9_witness :
    (∀ md : MemDesc,
        (fun (_ : NDArray) (d : MemDesc) => MkldnnMemory.mk d 1) (NDArray.mk [2] 0 [0, 0]) md ≠
          MkldnnMemory.mk (MemDesc.mk [⟨2, 2, 1⟩] 3) 0) ∧
    ((MKLDNNDeconvBwd.OutGradMem (DeconvBwdWeightsPd.mk (MemDesc.mk [⟨2, 2, 1⟩] 3))
          (fun _ d => MkldnnMemory.mk d 1) (NDArray.mk [2] 0 [0, 0])
          (some (MkldnnMemory.mk (MemDesc.mk [⟨2, 2, 1⟩] 3) 0)) =
        MkldnnMemory.mk (MemDesc.mk [⟨2, 2, 1⟩] 3) 0 ↔
        (MkldnnMemory.mk (MemDesc.mk [⟨2, 2, 1⟩] 3) 0).get_desc =
          (DeconvBwdWeightsPd.mk (MemDesc.mk [⟨2, 2, 1⟩] 3)).diff_dst_desc) ∧
      ((MkldnnMemory.mk (MemDesc.mk [⟨2, 2, 1⟩] 3) 0).get_desc ≠
          (DeconvBwdWeightsPd.mk (MemDesc.mk [⟨2, 2, 1⟩] 3)).diff_dst_desc →
        MKLDNNDeconvBwd.OutGradMem (DeconvBwdWeightsPd.mk (MemDesc.mk [⟨2, 2, 1⟩] 3))
            (fun _ d => MkldnnMemory.mk d 1) (NDArray.mk [2] 0 [0, 0])
            (some (MkldnnMemory.mk (MemDesc.mk [⟨2, 2, 1⟩] 3) 0)) =
          (fun (_ : NDArray) (d : MemDesc) => MkldnnMemory.mk d 1) (NDArray.mk [2] 0 [0, 0])
            (DeconvBwdWeightsPd.mk (MemDesc.mk [⟨2, 2, 1⟩] 3)).diff_dst_desc) ∧
      MKLDNNDeconvBwd.OutGradMem (DeconvBwdWeightsPd.mk (MemDesc.mk [⟨2, 2, 1⟩] 3))
          (fun _ d => MkldnnMemory.mk d 1) (NDArray.mk [2] 0 [0, 0]) none =
        (fun (_ : NDArray) (d : MemDesc) => MkldnnMemory.mk d 1) (NDArray.mk [2] 0 [0, 0])
          (DeconvBwdWeightsPd.mk (MemDesc.mk [⟨2, 2, 1⟩] 3)).diff_dst_desc) :=
  ⟨fun _ h => Nat.one_ne_zero (congrArg MkldnnMemory.id h),
    claim_C9_OutGradMem_reuse_iff (DeconvBwdWeightsPd.mk (MemDesc.mk [⟨2, 2, 1⟩] 3))
      (fun _ d => MkldnnMemory.mk d 1) (NDArray.mk [2] 0 [0, 0])
      (MkldnnMemory.mk (MemDesc.mk [⟨2, 2, 1⟩] 3) 0)
      (fun _ h => Nat.one_ne_zero (congrArg MkldnnMemory.id h))⟩

/-- Modelled from the spec: `NumpyRayleighParam` is declared in
np_rayleigh_op.h, which is not among the sources.  The registration code in
np_rayleigh_op.cc reads only whether `scale` carries a value, so the float
payload is modelled by an integer standing in for the scale. -/
structure NumpyRayleighParam where
  scale : Option Int
  size : Option (List Nat)
deriving DecidableEq, Repr

/-- The num-inputs lambda of `_npi_rayleigh`: starts from 1 and subtracts 1
when `param.scale` has a value. -/
def npiRayleighNumInputs (param : NumpyRayleighParam) : Int :=
  let num_inputs : Int := 1
  if param.scale.isSome then num_inputs - 1 else num_inputs

/-- `_npi_rayleigh` registers `set_num_outputs(2)`. -/
def npiRayleighNumOutputs : Int := 2

/-- The `FNumVisibleOutputs` lambda of `_npi_rayleigh` returns 1. -/
def npiRayleighNumVisibleOutputs : Int := 1

/-- The `FListInputNames` lambda of `_npi_rayleigh`: recomputes the input
count and returns an empty list when it is 0 and `{"input1"}` otherwise. -/
def npiRayleighListInputNames (param : NumpyRayleighParam) : List String :=
  let n : Int := 1
  let num_inputs : Int := if param.scale.isSome then n - 1 else n
  if num_inputs = 0 then [] else ["input1"]

/-- The num-inputs lambda of `_backward_broadcast_rayleigh`: starts from 5
and subtracts 1 when `param.scale` has a value. -/
def backwardBroadcastRayleighNumInputs (param : NumpyRayleighParam) : Int :=
  let num_inputs : Int := 5
  if param.scale.isSome then num_inputs - 1 else num_inputs

/-- The num-outputs lambda of `_backward_broadcast_rayleigh`: starts from 1
and subtracts 1 when `param.scale` has a value. -/
def backwardBroadcastRayleighNumOutputs (param : NumpyRayleighParam) : Int :=
  let num_outputs : Int := 1
  if param.scale.isSome then num_outputs - 1 else num_outputs

/-- Claim C4: for every parsed `NumpyRayleighParam` the registered arities
are mutually consistent: `_npi_rayleigh` has 1 input when `scale` has no
value and 0 when it has one; `FListInputNames` returns a list of exactly
that length (`{"input1"}` or empty); `_npi_rayleigh` has 2 outputs of which
exactly 1 is visible; `_backward_broadcast_rayleigh` has 5 inputs and 1
output without a scale value and 4 inputs and 0 outputs with one, so the
backward operator's output count equals the forward operator's input
count. -/
theorem claim_C4_rayleigh_arities_consistent (param : NumpyRayleighParam) :
    (npiRayleighListInputNames param).length = (npiRayleighNumInputs param).toNat ∧
    npiRayleighNumOutputs = 2 ∧
    npiRayleighNumVisibleOutputs = 1 ∧
    backwardBroadcastRayleighNumOutputs param = npiRayleighNumInputs param ∧
    (param.scale.isSome = true →
      npiRayleighNumInputs param = 0 ∧
      npiRayleighListInputNames param = [] ∧
      backwardBroadcastRayleighNumInputs param = 4 ∧
      backwardBroadcastRayleighNumOutputs param = 0) ∧
    (param.scale.isSome = false →
      npiRayleighNumInputs param = 1 ∧
      npiRayleighListInputNames param = ["input1"] ∧
      backwardBroadcastRayleighNumInputs param = 5 ∧
      backwardBroadcastRayleighNumOutputs param = 1) := by
  cases hs : param.scale <;>
    simp [npiRayleighNumInputs, npiRayleighListInputNames,
      backwardBroadcastRayleighNumInputs, backwardBroadcastRayleighNumOutputs,
      npiRayleighNumOutputs, npiRayleighNumVisibleOutputs, hs]

/-- `mshadow::kFloat32`: the first entry of mshadow's type-flag enum. -/
def kFloat32 : Int := 0

/-- The `FInferType` lambda of `_npi_rayleigh` (np_rayleigh_op.cc, lines
60-67): writes `mshadow::kFloat32` into both output type slots and returns
true; the input types are never read.  The C++ mutates `*out_attrs` in
place; the embedding returns the updated vector alongside the boolean. -/
def npiRayleighInferType (in_attrs out_attrs : List Int) : List Int × Bool :=
  ((out_attrs.set 0 kFloat32).set 1 kFloat32, true)

/-- Claim C5: the registered `FInferType` of `_npi_rayleigh` always
succeeds: for every input type vector it sets both output type slots to
float32 and returns true, independently of the input types (formalised by
quantifying over two arbitrary input vectors and equating the results). -/
theorem claim_C5_rayleigh_infer_type_always_float32
    (in_attrs in_attrs2 out_attrs : List Int) (h : 2 ≤ out_attrs.length) :
    (npiRayleighInferType in_attrs out_attrs).2 = true ∧
    (npiRayleighInferType in_attrs out_attrs).1[0]? = some kFloat32 ∧
    (npiRayleighInferType in_attrs out_attrs).1[1]? = some kFloat32 ∧
    npiRayleighInferType in_attrs out_attrs =
      npiRayleighInferType in_attrs2 out_attrs := by
  refine ⟨rfl, ?_, ?_, rfl⟩
  · show ((out_attrs.set 0 kFloat32).set 1 kFloat32)[0]? = some kFloat32
    rw [List.getElem?_set, if_neg (by omega), List.getElem?_set, if_pos rfl,
      if_pos (by omega)]
  · show ((out_attrs.set 0 kFloat32).set 1 kFloat32)[1]? = some kFloat32
    rw [List.getElem?_set, if_pos rfl,
      if_pos (show 1 < (out_attrs.set 0 kFloat32).length by
        rw [List.length_set]; omega)]

/-- Witness for C5 at concrete type vectors. -/
theorem claim_C5_witness :
    2 ≤ ([9, 9] : List Int).length ∧
    ((npiRayleighInferType [5] [9, 9]).2 = true ∧
      (npiRayleighInferType [5] [9, 9]).1[0]? = some kFloat32 ∧
      (npiRayleighInferType [5] [9, 9]).1[1]? = some kFloat32 ∧
      npiRayleighInferType [5] [9, 9] = npiRayleighInferType [7, 7] [9, 9]) :=
  ⟨by decide,
    claim_C5_rayleigh_infer_type_always_float32 [5] [7, 7] [9, 9] (by decide)⟩

/-- `OpReqType` (mxnet write-request kinds): kNullOp = 0, kWriteTo,
kWriteInplace, kAddTo. -/
inductive OpReqType where
  | kNullOp
  | kWriteTo
  | kWriteInplace
  | kAddTo
deriving DecidableEq, Repr

/-- C++ truth test `if (req[i])`: an `OpReqType` converts to true iff it is
not `kNullOp` (whose enum value is 0). -/
def OpReqType.isTruthy (r : OpReqType) : Bool := decide (r ≠ OpReqType.kNullOp)

namespace deconv

/-- Modelled from the spec: `deconv::kData` from the input enum of
deconvolution-inl.h, which is not among the sources (inputs are data,
weight, bias in order, as the tensor constructors in the shown code
index them). -/
def kData : Nat := 0

/-- Modelled from the spec: `deconv::kWeight` from the input enum of
deconvolution-inl.h, which is not among the sources. -/
def kWeight : Nat := 1

/-- Modelled from the spec: `deconv::kBias` from the input enum of
deconvolution-inl.h, which is not among the sources. -/
def kBias : Nat := 2

/-- Modelled from the spec: `deconv::kOut` from the output enum of
deconvolution-inl.h, which is not among the sources. -/
def kOut : Nat := 0

end deconv

/-- `MKLDNNDeconvBwd::IOSwapWeightsTensors` (mkldnn_deconvolution-inl.h,
lines 266-276) conditionally applies `IOLogicalSwapMKLDNNMem` to `weights`
and to `weights_grad`; the embedding returns which of the two swaps happen.
The guards are verbatim: `req[deconv::kData]` for weights and
`req[deconv::kWeight] || (req.size() < deconv::kBias && req[deconv::kBias])`
for weights_grad; the out-of-range `operator[]` in the second clause is
modelled by `getD` with `kNullOp` (false). -/
def MKLDNNDeconvBwd.IOSwapWeightsTensorsSwaps (req : List OpReqType) : Bool × Bool :=
  ((req.getD deconv.kData OpReqType.kNullOp).isTruthy,
    (req.getD deconv.kWeight OpReqType.kNullOp).isTruthy ||
      (decide (req.length < deconv.kBias) &&
        (req.getD deconv.kBias OpReqType.kNullOp).isTruthy))

/-- Claim C8: for every request vector of size at least `deconv::kBias + 1`,
the clause `req.size() < deconv::kBias && req[deconv::kBias]` of
`IOSwapWeightsTensors` is never satisfied, so `weights_grad` is swapped iff
`req[deconv::kWeight]` is a non-null request; a bias-gradient request alone
never triggers the swap, and the guarded access to `req[deconv::kBias]` is
unreachable. -/
theorem claim_C8_IOSwapWeightsTensors_dead_guard (req : List OpReqType)
    (h : deconv.kBias + 1 ≤ req.length) :
    (decide (req.length < deconv.kBias) &&
        (req.getD deconv.kBias OpReqType.kNullOp).isTruthy) = false ∧
    (MKLDNNDeconvBwd.IOSwapWeightsTensorsSwaps req).2 =
      (req.getD deconv.kWeight OpReqType.kNullOp).isTruthy := by
  have hlt : ¬ req.length < deconv.kBias := by
    unfold deconv.kBias at h ⊢; omega
  constructor
  · simp [hlt]
  · simp [MKLDNNDeconvBwd.IOSwapWeightsTensorsSwaps, hlt]

/-- Witness for C8 at a request vector asking only for the bias gradient:
the weights gradient is not swapped. -/
theorem claim_C8_witness :
    deconv.kBias + 1 ≤
      ([OpReqType.kNullOp, OpReqType.kNullOp, OpReqType.kWriteTo] : List OpReqType).length ∧
    ((decide (([OpReqType.kNullOp, OpReqType.kNullOp, OpReqType.kWriteTo] : List OpReqType).length <
          deconv.kBias) &&
        (([OpReqType.kNullOp, OpReqType.kNullOp, OpReqType.kWriteTo] : List OpReqType).getD
          deconv.kBias OpReqType.kNullOp).isTruthy) = false ∧
      (MKLDNNDeconvBwd.IOSwapWeightsTensorsSwaps
          [OpReqType.kNullOp, OpReqType.kNullOp, OpReqType.kWriteTo]).2 =
        (([OpReqType.kNullOp, OpReqType.kNullOp, OpReqType.kWriteTo] : List OpReqType).getD
          deconv.kWeight OpReqType.kNullOp).isTruthy) :=
  ⟨by decide,
    claim_C8_IOSwapWeightsTensors_dead_guard
      [OpReqType.kNullOp, OpReqType.kNullOp, OpReqType.kWriteTo] (by decide)⟩

/-- Modelled from the spec: the body of `MKLDNNReshapeFwd::Execute` is in
mkldnn_reshape.cc, which is not among the sources (only the class
declaration in mkldnn_reshape-inl.h is).  Per the spec, the reshape
operator "reuses underlying buffers without copying when format permits":
when the input's memory format permits, the output is the input's buffer
viewed under the new shape; otherwise the elements are copied into a fresh
buffer. -/
def MKLDNNReshapeFwd.Execute (format_permits : Bool) (fresh_buf : Nat)
    (input : NDArray) (out_shape : List Nat) : NDArray :=
  if format_permits then
    { shape := out_shape, bufId := input.bufId, data := input.data }
  else
    { shape := out_shape, bufId := fresh_buf, data := input.data }

/-- Claim C6: when the memory format of the input permits it, the reshape
forward operation produces its output by reusing the input's underlying
buffer — no copy of the element data — and the element values seen through
the output equal those of the input. -/
theorem claim_C6_reshape_reuses_buffer (format_permits : Bool)
    (fresh_buf : Nat) (input : NDArray) (out_shape : List Nat)
    (h : format_permits = true) :
    (MKLDNNReshapeFwd.Execute format_permits fresh_buf input out_shape).bufId =
      input.bufId ∧
    (MKLDNNReshapeFwd.Execute format_permits fresh_buf input out_shape).data =
      input.data := by
  subst h
  unfold MKLDNNReshapeFwd.Execute
  exact ⟨rfl, rfl⟩

/-- Witness for C6 at a concrete reshape of a 2x3 array to 3x2. -/
theorem claim_C6_witness :
    true = true ∧
    ((MKLDNNReshapeFwd.Execute true 9 (NDArray.mk [2, 3] 7 [1, 2, 3, 4, 5, 6])
          [3, 2]).bufId = (NDArray.mk [2, 3] 7 [1, 2, 3, 4, 5, 6]).bufId ∧
      (MKLDNNReshapeFwd.Execute true 9 (NDArray.mk [2, 3] 7 [1, 2, 3, 4, 5, 6])
          [3, 2]).data = (NDArray.mk [2, 3] 7 [1, 2, 3, 4, 5, 6]).data) :=
  ⟨rfl, claim_C6_reshape_reuses_buffer true 9
    (NDArray.mk [2, 3] 7 [1, 2, 3, 4, 5, 6]) [3, 2] rfl⟩

end MxnetVerify
